import Mathlib

/-!
Verification development for an EVM interpreter and stack executor
(a port of sputnikvm to a managed-buffer host environment).

Scope of the embedding:
  - the word stack (core/src/stack.rs),
  - the stepping interpreter Machine (core/src/lib.rs),
  - the opcode dispatcher eval (core/src/eval/mod.rs),
  - managed buffer access (eltypes/src/lib.rs),
  - the stack executor pieces: substate metadata commit and revert,
    child spawning, used gas, exists, and CREATE address derivation
    (src/executor/stack/executor.rs).

Machine words (256-bit) are modelled as Nat with explicit reduction
modulo 2 ^ 256 where the source wraps; usize is modelled as Nat with
the 64-bit bound made explicit where the source converts or can
overflow.  Host aborts (signal_error, Rust panics) are modelled as
Option.none results.

Components whose Rust sources are not part of the reviewed tree
(memory.rs, valids.rs, opcode.rs, error.rs, the eval handler modules,
the gasometer, keccak256) are modelled from the specification; each such
definition carries a doc comment beginning with: Modelled from the spec.
-/

namespace SputnikVM

/-- Modelled from the spec: success exit reasons (error.rs is absent from
the reviewed tree).  Stopped for STOP, Returned for RETURN, Suicided for
SELFDESTRUCT. -/
inductive ExitSucceed where
  | stopped
  | returned
  | suicided
  deriving DecidableEq, Repr

/-- Modelled from the spec: frame-local error exit reasons (error.rs is
absent from the reviewed tree). -/
inductive ExitError where
  | stackUnderflow
  | stackOverflow
  | invalidJump
  | invalidRange
  | designatedInvalid
  | callTooDeep
  | createCollision
  | createContractLimit
  | invalidCode (op : Nat)
  | outOfOffset
  | outOfGas
  | outOfFund
  | pcUnderflow
  | createEmpty
  | maxNonce
  | modifierDisabled
  deriving DecidableEq, Repr

/-- Modelled from the spec: revert exit reason. -/
inductive ExitRevert where
  | reverted
  deriving DecidableEq, Repr

/-- Modelled from the spec: fatal exit reasons. -/
inductive ExitFatal where
  | notSupported
  | unhandledInterrupt
  | callErrorAsFatal (e : ExitError)
  | other
  deriving DecidableEq, Repr

/-- Modelled from the spec: the tagged union of exit reasons. -/
inductive ExitReason where
  | succeed (s : ExitSucceed)
  | revert (r : ExitRevert)
  | error (e : ExitError)
  | fatal (f : ExitFatal)
  deriving DecidableEq, Repr

/-- Control signal returned by opcode evaluation (core/src/eval/mod.rs).
The Continue variant is named cont here because continue is reserved.
Opcodes are carried as their byte value. -/
inductive Control where
  | cont (n : Nat)
  | exit (r : ExitReason)
  | jump (n : Nat)
  | trap (op : Nat)
  deriving DecidableEq, Repr

/-- Capture returned by Machine.step to its caller: either a terminal
exit or a trap surrendering an opcode to the host
(Capture of core/src/error.rs, as used in core/src/lib.rs). -/
inductive StepCapture where
  | exit (r : ExitReason)
  | trap (op : Nat)
  deriving DecidableEq, Repr

/-- EVM word stack (core/src/stack.rs).  The source stores 32-byte EH256
values; a word is modelled as a Nat below 2 ^ 256.  The top of the stack
is the last element of data (push appends, pop removes the last
element). -/
structure Stack where
  data : List Nat
  limit : Nat
  deriving DecidableEq, Repr

/-- Stack length (Stack::len). -/
def Stack.len (s : Stack) : Nat := s.data.length

/-- Stack::pop of core/src/stack.rs, embedded as written.  The source
computes last_index = len() - 1 in usize BEFORE any emptiness check, so
on an empty stack the subtraction underflows: a debug build panics and a
release build wraps to usize::MAX and ManagedVec::get(usize::MAX)
signals a host error.  Both abort, modelled as none.  On a stack of
length 1 the guard last_index <= 0 holds but its body merely constructs
ExitError::StackUnderflow without returning it, so execution falls
through and the element is popped normally.  Consequently pop never
returns the StackUnderflow error. -/
def Stack.pop (s : Stack) : Option (Nat × Stack) :=
  if s.data.length = 0 then
    none
  else
    let lastIndex := s.data.length - 1
    -- the source guard `if last_index <= 0 { ExitError::StackUnderflow; }`
    -- evaluates the error expression and discards it: no effect
    some (s.data.getD lastIndex 0, { s with data := s.data.eraseIdx lastIndex })

/-- Stack::push of core/src/stack.rs: fails with StackOverflow and leaves
the stack unchanged when the push would exceed the limit. -/
def Stack.push (s : Stack) (value : Nat) : Except ExitError Stack :=
  if s.data.length + 1 > s.limit then
    .error .stackOverflow
  else
    .ok { s with data := s.data ++ [value] }

/-- Stack::peek of core/src/stack.rs: value at depth noFromTop below the
top, StackUnderflow when the index is too large. -/
def Stack.peek (s : Stack) (noFromTop : Nat) : Except ExitError Nat :=
  if s.data.length > noFromTop then
    .ok (s.data.getD (s.data.length - noFromTop - 1) 0)
  else
    .error .stackUnderflow

/-- Stack::set of core/src/stack.rs: write at depth noFromTop below the
top, StackUnderflow when the index is too large. -/
def Stack.setAt (s : Stack) (noFromTop : Nat) (val : Nat) : Except ExitError Stack :=
  if s.data.length > noFromTop then
    .ok { s with data := s.data.set (s.data.length - noFromTop - 1) val }
  else
    .error .stackUnderflow

/-- Largest usize value on the 64-bit target (usize::MAX). -/
def usizeMax : Nat := 2 ^ 64 - 1

/-- Word modulus: machine words are 256-bit. -/
def pow256 : Nat := 2 ^ 256

/-- Modelled from the spec: the linearly addressable byte memory
(memory.rs is absent from the reviewed tree).  data holds the written
bytes, effectiveLen is the logical length (a multiple of 32 grown by
resize), limit is the configured maximum. -/
structure Memory where
  data : List Nat
  effectiveLen : Nat
  limit : Nat
  deriving DecidableEq, Repr

/-- Modelled from the spec: Memory::get is a zero-extended read of len
bytes starting at offset; bytes beyond the written contents read as
zero. -/
def Memory.get (m : Memory) (offset len : Nat) : List Nat :=
  (List.range len).map (fun i => m.data.getD (offset + i) 0)

/-- Round up to the next multiple of 32. -/
def ceil32 (n : Nat) : Nat := (n + 31) / 32 * 32

/-- Modelled from the spec: Memory::resize_to grows the logical length
monotonically to the next multiple of 32 covering size, raising an
error when the configured maximum would be exceeded. -/
def Memory.resizeTo (m : Memory) (size : Nat) : Except ExitError Memory :=
  if m.limit < size then
    .error .invalidRange
  else if size ≤ m.effectiveLen then
    .ok m
  else
    .ok { m with effectiveLen := ceil32 size }

/-- Modelled from the spec: resize to cover a read or write of len bytes
at offset; a zero-length access does not grow memory. -/
def Memory.resizeOffset (m : Memory) (offset len : Nat) : Except ExitError Memory :=
  if len = 0 then .ok m else m.resizeTo (offset + len)

/-- Write bytes into a byte list at offset, zero-extending the list as
needed. -/
def listWrite (data : List Nat) (offset : Nat) (bytes : List Nat) : List Nat :=
  let padded := data ++ List.replicate (offset + bytes.length - data.length) 0
  padded.take offset ++ bytes ++ padded.drop (offset + bytes.length)

/-- Modelled from the spec: Memory::set writes min(len, value.length)
bytes from value at offset and zero-fills the remainder up to len. -/
def Memory.setBytes (m : Memory) (offset : Nat) (value : List Nat) (len : Nat) : Memory :=
  let bytes := value.take len ++ List.replicate (len - value.length) 0
  { m with data := listWrite m.data offset bytes }

/-- Modelled from the spec: Memory::copy_large copies len bytes from an
arbitrary source byte string with out-of-range zero-fill. -/
def Memory.copyLarge (m : Memory) (dstOff srcOff len : Nat) (src : List Nat) : Memory :=
  m.setBytes dstOff ((List.range len).map (fun i => src.getD (srcOff + i) 0)) len

/-- Modelled from the spec: the valids map sweep (valids.rs is absent
from the reviewed tree).  Walk the code left to right; a JUMPDEST byte
(0x5b) outside a PUSH payload marks a valid destination; a PUSHn byte
(0x60 to 0x7f) skips its n payload bytes, which are all invalid. -/
def validsSweep : List Nat → List Bool
  | [] => []
  | op :: rest =>
    if op = 0x5b then
      true :: validsSweep rest
    else if 0x60 ≤ op ∧ op ≤ 0x7f then
      let n := op - 0x5f
      false :: (List.replicate (min n rest.length) false ++ validsSweep (rest.drop n))
    else
      false :: validsSweep rest
termination_by l => l.length
decreasing_by
  all_goals simp_wf
  all_goals omega

/-- Modelled from the spec: Valids::is_valid, a bounds-checked lookup. -/
def validsIsValid (v : List Bool) (i : Nat) : Bool := v.getD i false

/-- Equality on Except is decidable when it is on both components. -/
instance {e a : Type} [DecidableEq e] [DecidableEq a] : DecidableEq (Except e a) := fun x y =>
  match x, y with
  | .ok v, .ok w => if h : v = w then isTrue (by rw [h]) else isFalse (by simp [h])
  | .error v, .error w => if h : v = w then isTrue (by rw [h]) else isFalse (by simp [h])
  | .ok _, .error _ => isFalse (by simp)
  | .error _, .ok _ => isFalse (by simp)

/-- The interpreter state (core/src/lib.rs).  position is the program
counter: a byte offset, or the terminal exit reason once the machine has
exited.  returnRange is the half-open U256 range (start, stop) over
memory recorded by RETURN and REVERT. -/
structure Machine where
  data : List Nat
  code : List Nat
  position : Except ExitReason Nat
  returnRange : Nat × Nat
  valids : List Bool
  memory : Memory
  stack : Stack
  deriving DecidableEq, Repr

/-- Machine::new (core/src/lib.rs): zero PC, empty return range, valids
computed from the code, empty memory and stack. -/
def Machine.new (code data : List Nat) (stackLimit memoryLimit : Nat) : Machine :=
  { data := data
    code := code
    position := .ok 0
    returnRange := (0, 0)
    valids := validsSweep code
    memory := { data := [], effectiveLen := 0, limit := memoryLimit }
    stack := { data := [], limit := stackLimit } }

/-- ManagedBufferAccess::try_get (eltypes/src/lib.rs): load_slice of one
byte at index succeeds exactly when index + 1 is within the buffer. -/
def mbTryGet (buf : List Nat) (index : Nat) : Option Nat :=
  if index + 1 ≤ buf.length then some (buf.getD index 0) else none

/-- ManagedBufferAccess::get (eltypes/src/lib.rs): on an out-of-range
index the host signals INDEX_OUT_OF_RANGE_MSG and aborts, modelled as
none. -/
def mbGet (buf : List Nat) (index : Nat) : Option Nat :=
  match mbTryGet buf index with
  | some result => some result
  | none => none

/-- Interpret a word as a signed 256-bit value (two-complement). -/
def toSigned (a : Nat) : Int := if a < 2 ^ 255 then (a : Int) else (a : Int) - (pow256 : Int)

/-- Encode a signed value back into a word, reducing modulo 2 ^ 256. -/
def ofSigned (i : Int) : Nat := (i % (pow256 : Int)).toNat

/-- Modelled from the spec: wrapping addition modulo 2 ^ 256. -/
def u256add (a b : Nat) : Nat := (a + b) % pow256

/-- Modelled from the spec: wrapping multiplication modulo 2 ^ 256. -/
def u256mul (a b : Nat) : Nat := a * b % pow256

/-- Modelled from the spec: wrapping subtraction modulo 2 ^ 256. -/
def u256sub (a b : Nat) : Nat := (a + (pow256 - b)) % pow256

/-- Modelled from the spec: DIV with division by zero yielding zero. -/
def arithDiv (a b : Nat) : Nat := if 0 < b then a / b else 0

/-- Modelled from the spec: MOD with modulus zero yielding zero. -/
def arithRem (a b : Nat) : Nat := if 0 < b then a % b else 0

/-- Modelled from the spec: SDIV, signed division truncating toward
zero; division of the minimum value by minus one wraps back to the
minimum value. -/
def arithSdiv (a b : Nat) : Nat :=
  if 0 < b then ofSigned (Int.tdiv (toSigned a) (toSigned b)) else 0

/-- Modelled from the spec: SMOD, signed remainder with the sign of the
dividend; modulus zero yields zero. -/
def arithSrem (a b : Nat) : Nat :=
  if 0 < b then ofSigned (Int.tmod (toSigned a) (toSigned b)) else 0

/-- Modelled from the spec: ADDMOD over the exact sum, modulus zero
yielding zero. -/
def arithAddmod (a b n : Nat) : Nat := if 0 < n then (a + b) % n else 0

/-- Modelled from the spec: MULMOD over the exact 512-bit product,
modulus zero yielding zero. -/
def arithMulmod (a b n : Nat) : Nat := if 0 < n then a * b % n else 0

/-- Modelled from the spec: EXP by repeated squaring modulo 2 ^ 256. -/
def arithExp (a : Nat) (b : Nat) : Nat :=
  if b = 0 then 1
  else
    let h := arithExp a (b / 2)
    if b % 2 = 0 then h * h % pow256 else h * h % pow256 * a % pow256
termination_by b
decreasing_by
  simp_wf
  omega

/-- Modelled from the spec: SIGNEXTEND(b, x) sign-extends x treating the
top bit of byte b as the sign; byte indices past 31 leave x unchanged. -/
def arithSignextend (b x : Nat) : Nat :=
  if 31 < b then x
  else
    let bitIndex := 8 * b + 7
    if x >>> bitIndex &&& 1 = 1 then x ||| (pow256 - 2 ^ (bitIndex + 1))
    else x &&& (2 ^ (bitIndex + 1) - 1)

/-- Modelled from the spec: signed less-than pushing zero or one. -/
def bitSlt (a b : Nat) : Nat := if toSigned a < toSigned b then 1 else 0

/-- Modelled from the spec: signed greater-than pushing zero or one. -/
def bitSgt (a b : Nat) : Nat := if toSigned b < toSigned a then 1 else 0

/-- Modelled from the spec: ISZERO pushing zero or one. -/
def bitIszero (a : Nat) : Nat := if a = 0 then 1 else 0

/-- Modelled from the spec: bitwise NOT over 256 bits. -/
def bitNot (a : Nat) : Nat := pow256 - 1 - a

/-- Modelled from the spec: BYTE(i, x) returns byte i of x counting from
the most significant end, zero when i is 32 or more. -/
def bitByte (i x : Nat) : Nat := if 32 ≤ i then 0 else x >>> (8 * (31 - i)) &&& 255

/-- Modelled from the spec: SHL, zero when the shift is 256 or more. -/
def bitShl (shift value : Nat) : Nat :=
  if 256 ≤ shift then 0 else value <<< shift % pow256

/-- Modelled from the spec: SHR, zero when the shift is 256 or more. -/
def bitShr (shift value : Nat) : Nat :=
  if 256 ≤ shift then 0 else value >>> shift

/-- Modelled from the spec: SAR, an arithmetic shift preserving the
sign; shifts of 256 or more yield zero or all ones per the sign. -/
def bitSar (shift value : Nat) : Nat :=
  if 256 ≤ shift then (if toSigned value < 0 then pow256 - 1 else 0)
  else ofSigned (Int.fdiv (toSigned value) ((2 : Int) ^ shift))

/-- Big-endian word from a byte list. -/
def wordFromBytesBE (bytes : List Nat) : Nat := bytes.foldl (fun acc b => acc * 256 + b) 0

/-- Big-endian 32-byte encoding of a word. -/
def wordToBytes32 (w : Nat) : List Nat :=
  (List.range 32).map (fun i => w >>> (8 * (31 - i)) &&& 255)

/-- Pop one word off the machine stack, threading the machine; aborts
(none) when the embedded Stack.pop aborts. -/
def popWord (s : Machine) : Option (Nat × Machine) :=
  match s.stack.pop with
  | none => none
  | some (v, st) => some (v, { s with stack := st })

/-- Push one word and continue to the next opcode; a failed push exits
the frame with the stack error, mirroring the push macro shape
(macros.rs is absent from the reviewed tree). -/
def pushCont (s : Machine) (v : Nat) : Option (Machine × Control) :=
  match s.stack.push v with
  | .error e => some (s, .exit (.error e))
  | .ok st => some ({ s with stack := st }, .cont 1)

/-- Modelled from the spec: the pop-one push-one handler shape of the
unary opcode macros. -/
def op1 (s : Machine) (f : Nat → Nat) : Option (Machine × Control) := do
  let (a, s1) ← popWord s
  pushCont s1 (f a)

/-- Modelled from the spec: the pop-two push-one handler shape of the
binary opcode macros; the first pop is the top of the stack. -/
def op2 (s : Machine) (f : Nat → Nat → Nat) : Option (Machine × Control) := do
  let (a, s1) ← popWord s
  let (b, s2) ← popWord s1
  pushCont s2 (f a b)

/-- Modelled from the spec: the pop-three push-one handler shape of the
ternary opcode macros. -/
def op3 (s : Machine) (f : Nat → Nat → Nat → Nat) : Option (Machine × Control) := do
  let (a, s1) ← popWord s
  let (b, s2) ← popWord s1
  let (c, s3) ← popWord s2
  pushCont s3 (f a b c)

/-- STOP handler (eval_stop of core/src/eval/mod.rs). -/
def evalStop (s : Machine) : Option (Machine × Control) :=
  some (s, .exit (.succeed .stopped))

/-- Modelled from the spec: CODESIZE pushes the code length. -/
def miscCodesize (s : Machine) : Option (Machine × Control) :=
  pushCont s s.code.length

/-- Modelled from the spec: CODECOPY pops destination offset, code
offset and length, grows memory and bulk-copies from the code with
zero-fill. -/
def miscCodecopy (s : Machine) : Option (Machine × Control) := do
  let (memOff, s1) ← popWord s
  let (codeOff, s2) ← popWord s1
  let (len, s3) ← popWord s2
  match s3.memory.resizeOffset memOff len with
  | .error e => some (s3, .exit (.error e))
  | .ok mem => some ({ s3 with memory := mem.copyLarge memOff codeOff len s3.code }, .cont 1)

/-- Modelled from the spec: CALLDATALOAD pushes 32 bytes of call data at
the popped index, zero-extended past the end. -/
def miscCalldataload (s : Machine) : Option (Machine × Control) := do
  let (index, s1) ← popWord s
  pushCont s1 (wordFromBytesBE ((List.range 32).map (fun i => s1.data.getD (index + i) 0)))

/-- Modelled from the spec: CALLDATASIZE pushes the call data length. -/
def miscCalldatasize (s : Machine) : Option (Machine × Control) :=
  pushCont s s.data.length

/-- Modelled from the spec: CALLDATACOPY, as CODECOPY but from the call
data. -/
def miscCalldatacopy (s : Machine) : Option (Machine × Control) := do
  let (memOff, s1) ← popWord s
  let (dataOff, s2) ← popWord s1
  let (len, s3) ← popWord s2
  match s3.memory.resizeOffset memOff len with
  | .error e => some (s3, .exit (.error e))
  | .ok mem => some ({ s3 with memory := mem.copyLarge memOff dataOff len s3.data }, .cont 1)

/-- Modelled from the spec: POP discards the top of the stack. -/
def miscPop (s : Machine) : Option (Machine × Control) := do
  let (_, s1) ← popWord s
  some (s1, .cont 1)

/-- Modelled from the spec: MLOAD grows memory to cover 32 bytes at the
popped index and pushes them as a word. -/
def miscMload (s : Machine) : Option (Machine × Control) := do
  let (index, s1) ← popWord s
  match s1.memory.resizeOffset index 32 with
  | .error e => some (s1, .exit (.error e))
  | .ok mem => pushCont { s1 with memory := mem } (wordFromBytesBE (mem.get index 32))

/-- Modelled from the spec: MSTORE grows memory and writes the 32-byte
big-endian encoding of the popped value at the popped index. -/
def miscMstore (s : Machine) : Option (Machine × Control) := do
  let (index, s1) ← popWord s
  let (value, s2) ← popWord s1
  match s2.memory.resizeOffset index 32 with
  | .error e => some (s2, .exit (.error e))
  | .ok mem => some ({ s2 with memory := mem.setBytes index (wordToBytes32 value) 32 }, .cont 1)

/-- Modelled from the spec: MSTORE8 grows memory and writes the low byte
of the popped value at the popped index. -/
def miscMstore8 (s : Machine) : Option (Machine × Control) := do
  let (index, s1) ← popWord s
  let (value, s2) ← popWord s1
  match s2.memory.resizeOffset index 1 with
  | .error e => some (s2, .exit (.error e))
  | .ok mem => some ({ s2 with memory := mem.setBytes index [value &&& 255] 1 }, .cont 1)

/-- Modelled from the spec: JUMP validates the popped destination
against the valids map; a destination past usize or at an invalid byte
exits with InvalidJump. -/
def miscJump (s : Machine) : Option (Machine × Control) := do
  let (dest, s1) ← popWord s
  if usizeMax < dest then some (s1, .exit (.error .invalidJump))
  else if validsIsValid s1.valids dest then some (s1, .jump dest)
  else some (s1, .exit (.error .invalidJump))

/-- Modelled from the spec: JUMPI jumps when the popped condition is
nonzero, otherwise falls through. -/
def miscJumpi (s : Machine) : Option (Machine × Control) := do
  let (dest, s1) ← popWord s
  let (value, s2) ← popWord s1
  if value ≠ 0 then
    if usizeMax < dest then some (s2, .exit (.error .invalidJump))
    else if validsIsValid s2.valids dest then some (s2, .jump dest)
    else some (s2, .exit (.error .invalidJump))
  else some (s2, .cont 1)

/-- Modelled from the spec: PC pushes the current position. -/
def miscPc (s : Machine) (position : Nat) : Option (Machine × Control) :=
  pushCont s position

/-- Modelled from the spec: MSIZE pushes the logical memory length. -/
def miscMsize (s : Machine) : Option (Machine × Control) :=
  pushCont s s.memory.effectiveLen

/-- JUMPDEST handler (eval_jumpdest of core/src/eval/mod.rs): no
effect. -/
def evalJumpdest (s : Machine) : Option (Machine × Control) :=
  some (s, .cont 1)

/-- Modelled from the spec: PUSHn pushes the n code bytes following the
opcode, zero-filled on the right when the program ends early, and skips
past them. -/
def miscPush (s : Machine) (n position : Nat) : Option (Machine × Control) :=
  let slice := (s.code.drop (position + 1)).take n
  let w := wordFromBytesBE (slice ++ List.replicate (n - slice.length) 0)
  match s.stack.push w with
  | .error e => some (s, .exit (.error e))
  | .ok st => some ({ s with stack := st }, .cont (n + 1))

/-- Modelled from the spec: DUPn duplicates the value at depth n - 1
onto the top. -/
def miscDup (s : Machine) (n : Nat) : Option (Machine × Control) :=
  match s.stack.peek (n - 1) with
  | .error e => some (s, .exit (.error e))
  | .ok value =>
    match s.stack.push value with
    | .error e => some (s, .exit (.error e))
    | .ok st => some ({ s with stack := st }, .cont 1)

/-- Modelled from the spec: SWAPn exchanges the top with the value at
depth n. -/
def miscSwap (s : Machine) (n : Nat) : Option (Machine × Control) :=
  match s.stack.peek 0 with
  | .error e => some (s, .exit (.error e))
  | .ok val1 =>
    match s.stack.peek n with
    | .error e => some (s, .exit (.error e))
    | .ok val2 =>
      match s.stack.setAt n val1 with
      | .error e => some (s, .exit (.error e))
      | .ok st1 =>
        match st1.setAt 0 val2 with
        | .error e => some (s, .exit (.error e))
        | .ok st2 => some ({ s with stack := st2 }, .cont 1)

/-- Modelled from the spec: RETURN pops offset and length, grows memory,
records the return range and exits with Succeed(Returned).  The range
end is the U256 sum offset + length, whose overflow panics (none). -/
def miscRet (s : Machine) : Option (Machine × Control) := do
  let (start, s1) ← popWord s
  let (len, s2) ← popWord s1
  match s2.memory.resizeOffset start len with
  | .error e => some (s2, .exit (.error e))
  | .ok mem =>
    if start + len < pow256 then
      some ({ s2 with memory := mem, returnRange := (start, start + len) },
        .exit (.succeed .returned))
    else none

/-- Modelled from the spec: REVERT, as RETURN but exiting with
Revert(Reverted). -/
def miscRevert (s : Machine) : Option (Machine × Control) := do
  let (start, s1) ← popWord s
  let (len, s2) ← popWord s1
  match s2.memory.resizeOffset start len with
  | .error e => some (s2, .exit (.error e))
  | .ok mem =>
    if start + len < pow256 then
      some ({ s2 with memory := mem, returnRange := (start, start + len) },
        .exit (.revert .reverted))
    else none

/-- INVALID handler (eval_invalid of core/src/eval/mod.rs). -/
def evalInvalid (s : Machine) : Option (Machine × Control) :=
  some (s, .exit (.error .designatedInvalid))

/-- The opcode dispatcher eval (core/src/eval/mod.rs), embedded arm by
arm; opcode byte values are the standard EVM assignments, modelled from
the spec because opcode.rs is absent from the reviewed tree.  The
closing arm of the source match is a catch-all panic (message: Opcode
not found), modelled as none: the source defines an eval_external handler
returning Control::Trap(opcode) but never references it in the match, so
every host opcode (ADDRESS, BALANCE, SLOAD, SSTORE, CALL, CREATE, the
LOGn family, SELFDESTRUCT, and the rest) and every unassigned byte
panics instead of trapping or exiting with DesignatedInvalid. -/
def eval (s : Machine) (opcode : Nat) (position : Nat) : Option (Machine × Control) :=
  match opcode with
  | 0x00 => evalStop s
  | 0x01 => op2 s u256add
  | 0x02 => op2 s u256mul
  | 0x03 => op2 s u256sub
  | 0x04 => op2 s arithDiv
  | 0x05 => op2 s arithSdiv
  | 0x06 => op2 s arithRem
  | 0x07 => op2 s arithSrem
  | 0x08 => op3 s arithAddmod
  | 0x09 => op3 s arithMulmod
  | 0x0a => op2 s arithExp
  | 0x0b => op2 s arithSignextend
  | 0x10 => op2 s (fun a b => if a < b then 1 else 0)
  | 0x11 => op2 s (fun a b => if b < a then 1 else 0)
  | 0x12 => op2 s bitSlt
  | 0x13 => op2 s bitSgt
  | 0x14 => op2 s (fun a b => if a = b then 1 else 0)
  | 0x15 => op1 s bitIszero
  | 0x16 => op2 s (fun a b => a &&& b)
  | 0x17 => op2 s (fun a b => a ||| b)
  | 0x18 => op2 s (fun a b => a ^^^ b)
  | 0x19 => op1 s bitNot
  | 0x1a => op2 s bitByte
  | 0x1b => op2 s bitShl
  | 0x1c => op2 s bitShr
  | 0x1d => op2 s bitSar
  | 0x38 => miscCodesize s
  | 0x39 => miscCodecopy s
  | 0x35 => miscCalldataload s
  | 0x36 => miscCalldatasize s
  | 0x37 => miscCalldatacopy s
  | 0x50 => miscPop s
  | 0x51 => miscMload s
  | 0x52 => miscMstore s
  | 0x53 => miscMstore8 s
  | 0x56 => miscJump s
  | 0x57 => miscJumpi s
  | 0x58 => miscPc s position
  | 0x59 => miscMsize s
  | 0x5b => evalJumpdest s
  | 0x60 => miscPush s 1 position
  | 0x61 => miscPush s 2 position
  | 0x62 => miscPush s 3 position
  | 0x63 => miscPush s 4 position
  | 0x64 => miscPush s 5 position
  | 0x65 => miscPush s 6 position
  | 0x66 => miscPush s 7 position
  | 0x67 => miscPush s 8 position
  | 0x68 => miscPush s 9 position
  | 0x69 => miscPush s 10 position
  | 0x6a => miscPush s 11 position
  | 0x6b => miscPush s 12 position
  | 0x6c => miscPush s 13 position
  | 0x6d => miscPush s 14 position
  | 0x6e => miscPush s 15 position
  | 0x6f => miscPush s 16 position
  | 0x70 => miscPush s 17 position
  | 0x71 => miscPush s 18 position
  | 0x72 => miscPush s 19 position
  | 0x73 => miscPush s 20 position
  | 0x74 => miscPush s 21 position
  | 0x75 => miscPush s 22 position
  | 0x76 => miscPush s 23 position
  | 0x77 => miscPush s 24 position
  | 0x78 => miscPush s 25 position
  | 0x79 => miscPush s 26 position
  | 0x7a => miscPush s 27 position
  | 0x7b => miscPush s 28 position
  | 0x7c => miscPush s 29 position
  | 0x7d => miscPush s 30 position
  | 0x7e => miscPush s 31 position
  | 0x7f => miscPush s 32 position
  | 0x80 => miscDup s 1
  | 0x81 => miscDup s 2
  | 0x82 => miscDup s 3
  | 0x83 => miscDup s 4
  | 0x84 => miscDup s 5
  | 0x85 => miscDup s 6
  | 0x86 => miscDup s 7
  | 0x87 => miscDup s 8
  | 0x88 => miscDup s 9
  | 0x89 => miscDup s 10
  | 0x8a => miscDup s 11
  | 0x8b => miscDup s 12
  | 0x8c => miscDup s 13
  | 0x8d => miscDup s 14
  | 0x8e => miscDup s 15
  | 0x8f => miscDup s 16
  | 0x90 => miscSwap s 1
  | 0x91 => miscSwap s 2
  | 0x92 => miscSwap s 3
  | 0x93 => miscSwap s 4
  | 0x94 => miscSwap s 5
  | 0x95 => miscSwap s 6
  | 0x96 => miscSwap s 7
  | 0x97 => miscSwap s 8
  | 0x98 => miscSwap s 9
  | 0x99 => miscSwap s 10
  | 0x9a => miscSwap s 11
  | 0x9b => miscSwap s 12
  | 0x9c => miscSwap s 13
  | 0x9d => miscSwap s 14
  | 0x9e => miscSwap s 15
  | 0x9f => miscSwap s 16
  | 0xf3 => miscRet s
  | 0xfd => miscRevert s
  | 0xfe => evalInvalid s
  | _ => none

/-- U256 subtraction as used in Machine::return_value: the uint crate
panics on underflow, modelled as none. -/
def u256checkedSub (a b : Nat) : Option Nat := if b ≤ a then some (a - b) else none

/-- U256::as_usize: panics when the value does not fit in usize,
modelled as none. -/
def u256asUsize (n : Nat) : Option Nat := if n ≤ usizeMax then some n else none

/-- Machine::step (core/src/lib.rs), embedded branch by branch.  The
outer Option is abnormal termination (host abort or panic); the inner
Option StepCapture is the Result of the source: none for Ok(()),
some for Err(Capture).  A terminal position returns the recorded exit
reason without touching the machine.  The byte fetch goes through
ManagedBufferAccess::get, which aborts on an out-of-range position; the
source wraps the fetched byte as `match Some(Opcode(v))`, so its None
arm, which would exit with Succeed(Stopped), is unreachable.  The four
control outcomes of eval update the position as the source does. -/
def Machine.step (m : Machine) : Option (Machine × Option StepCapture) :=
  match m.position with
  | .error reason => some (m, some (.exit reason))
  | .ok position =>
    match mbGet m.code position with
    | none => none
    | some v =>
      match eval m v position with
      | none => none
      | some (m2, control) =>
        match control with
        | .cont p => some ({ m2 with position := .ok (position + p) }, none)
        | .exit e => some ({ m2 with position := .error e }, some (.exit e))
        | .jump p => some ({ m2 with position := .ok p }, none)
        | .trap opcode => some ({ m2 with position := .ok (position + 1) }, some (.trap opcode))

/-- Machine::return_value (core/src/lib.rs), embedded branch by branch.
When the range start is past usize::MAX the result is a fresh buffer of
end - start zero bytes; when only the range end is past usize::MAX the
in-range part is read from memory and zeros are pushed up to end -
start; otherwise the range is read from memory directly.  The U256
subtraction end - start panics on a backwards range and as_usize panics
when end - start does not fit in usize, both modelled as none. -/
def Machine.returnValue (m : Machine) : Option (List Nat) :=
  if usizeMax < m.returnRange.1 then
    match u256checkedSub m.returnRange.2 m.returnRange.1 with
    | none => none
    | some d =>
      match u256asUsize d with
      | none => none
      | some d => some (List.replicate d 0)
  else if usizeMax < m.returnRange.2 then
    let ret := m.memory.get m.returnRange.1 (usizeMax - m.returnRange.1)
    match u256checkedSub m.returnRange.2 m.returnRange.1 with
    | none => none
    | some d =>
      match u256asUsize d with
      | none => none
      | some d => some (ret ++ List.replicate (d - ret.length) 0)
  else
    match u256checkedSub m.returnRange.2 m.returnRange.1 with
    | none => none
    | some d =>
      match u256asUsize d with
      | none => none
      | some d => some (m.memory.get m.returnRange.1 d)

/-- Mask for one 64-bit lane. -/
def mask64 : Nat := 2 ^ 64 - 1

/-- Rotate a 64-bit lane left by n (n below 64). -/
def rotl64 (x n : Nat) : Nat := (x <<< n ||| x >>> (64 - n)) &&& mask64

/-- Modelled from the spec: the 24 Keccak round constants. -/
def keccakRC : List Nat :=
  [0x0000000000000001, 0x0000000000008082, 0x800000000000808a, 0x8000000080008000,
   0x000000000000808b, 0x0000000080000001, 0x8000000080008081, 0x8000000000008009,
   0x000000000000008a, 0x0000000000000088, 0x0000000080008009, 0x000000008000000a,
   0x000000008000808b, 0x800000000000008b, 0x8000000000008089, 0x8000000000008003,
   0x8000000000008002, 0x8000000000000080, 0x000000000000800a, 0x800000008000000a,
   0x8000000080008081, 0x8000000000008080, 0x0000000080000001, 0x8000000080008008]

/-- Modelled from the spec: the Keccak rotation offsets, generated by
the rho walk: starting from lane (1, 0), step t assigns the offset
(t + 1)(t + 2)/2 mod 64 and moves (x, y) to (y, (2x + 3y) mod 5).  The
flattened table keeps lane (x, y) at index x + 5 * y. -/
def keccakRho : List Nat :=
  ((List.range 24).foldl
    (fun acc t =>
      let x := acc.2.1
      let y := acc.2.2
      (acc.1.set (x + 5 * y) ((t + 1) * (t + 2) / 2 % 64), (y, (2 * x + 3 * y) % 5)))
    (List.replicate 25 0, (1, 0))).1

/-- Lane lookup in a flattened 5 by 5 state. -/
def lane (s : List Nat) (i : Nat) : Nat := s.getD i 0

/-- Modelled from the spec: one Keccak-f round (theta, rho, pi, chi,
iota) on the flattened state. -/
def keccakRound (s : List Nat) (rc : Nat) : List Nat :=
  let c := (List.range 5).map (fun x =>
    lane s x ^^^ lane s (x + 5) ^^^ lane s (x + 10) ^^^ lane s (x + 15) ^^^ lane s (x + 20))
  let d := (List.range 5).map (fun x =>
    lane c ((x + 4) % 5) ^^^ rotl64 (lane c ((x + 1) % 5)) 1)
  let a1 := (List.range 25).map (fun i => lane s i ^^^ lane d (i % 5))
  let b := (List.range 25).map (fun j =>
    let y := j % 5
    let x := (3 * (j / 5) + y) % 5
    rotl64 (lane a1 (x + 5 * y)) (lane keccakRho (x + 5 * y)))
  let a2 := (List.range 25).map (fun i =>
    let x := i % 5
    let y := i / 5
    lane b i ^^^ ((lane b ((x + 1) % 5 + 5 * y) ^^^ mask64) &&& lane b ((x + 2) % 5 + 5 * y)))
  match a2 with
  | a0 :: rest => (a0 ^^^ rc) :: rest
  | [] => []

/-- Modelled from the spec: the full Keccak-f[1600] permutation. -/
def keccakF (s : List Nat) : List Nat := keccakRC.foldl keccakRound s

/-- Little-endian 64-bit lane from up to eight bytes. -/
def laneFromBytes (bytes : List Nat) : Nat := bytes.foldr (fun b acc => b + 256 * acc) 0

/-- Little-endian bytes of one lane. -/
def laneToBytes (x : Nat) : List Nat := (List.range 8).map (fun i => x >>> (8 * i) &&& 255)

/-- Modelled from the spec: absorb one 136-byte rate block into the
state and permute. -/
def keccakAbsorbBlock (s block : List Nat) : List Nat :=
  keccakF ((List.range 25).map (fun i =>
    if i < 17 then lane s i ^^^ laneFromBytes ((block.drop (8 * i)).take 8) else lane s i))

/-- Modelled from the spec: Keccak multi-rate padding with domain byte
0x01 (the pre-standardisation Keccak used by Ethereum). -/
def keccakPad (m : List Nat) : List Nat :=
  let padlen := 136 - m.length % 136
  if padlen = 1 then m ++ [0x81]
  else m ++ 0x01 :: (List.replicate (padlen - 2) 0 ++ [0x80])

/-- Modelled from the spec: absorb a padded message block by block; the
fuel argument is structural so that the definition reduces, and is
always at least the number of blocks. -/
def keccakAbsorbAux : Nat → List Nat → List Nat → List Nat
  | 0, s, _ => s
  | fuel + 1, s, msg =>
    if msg.isEmpty then s
    else keccakAbsorbAux fuel (keccakAbsorbBlock s (msg.take 136)) (msg.drop 136)

/-- Modelled from the spec: absorb a padded message block by block. -/
def keccakAbsorb (s msg : List Nat) : List Nat := keccakAbsorbAux msg.length s msg

/-- Modelled from the spec: keccak256 of a byte string, the host crypto
primitive keccak256_legacy used by the executor. -/
def keccak256 (m : List Nat) : List Nat :=
  let s := keccakAbsorb (List.replicate 25 0) (keccakPad m)
  (List.range 4).flatMap (fun i => laneToBytes (lane s i))

/-- Number of significant bits of a word (U256::bits). -/
def u256bits (n : Nat) : Nat := if 0 < n then Nat.log2 n + 1 else 0

/-- Byte i of a word counting from the least significant end
(U256::byte). -/
def u256byte (n i : Nat) : Nat := n >>> (8 * i) &&& 255

/-- StackExecutor::create_address for CreateScheme::Legacy
(src/executor/stack/executor.rs), embedded line by line; the nonce
argument stands for self.nonce(caller) read from the backend, and the
caller is its 20 bytes.  The source hand-rolls the RLP payload: header
192 + len - 1, the 0x94 address item tag, the 20 caller bytes, then for
a nonce below 128 the single byte nonce.byte(0), and otherwise a 128 +
nonce_len tag followed by the bytes nonce.byte(0), nonce.byte(1), ...
with every zero byte replaced by 128.  The address is the last 20 bytes
of the keccak256 of that payload (H160::from(H256) keeps bytes 12 to
31).  Note the nonce bytes are emitted least significant first and a
zero nonce is emitted as the byte 0x00. -/
def createAddressLegacy (caller : List Nat) (nonce : Nat) : List Nat :=
  let nonceLen := u256bits nonce % 256 / 8 + 1
  let len := 22 + nonceLen + (if 128 ≤ nonce then 1 else 0)
  let data := (192 + len - 1) :: 148 :: caller ++
    (if nonce < 128 then [u256byte nonce 0]
     else (128 + nonceLen) ::
       (List.range nonceLen).map (fun i =>
         let b := u256byte nonce i
         if b = 0 then 128 else b))
  (keccak256 data).drop 12

/-- Modelled from the spec: the hard-fork configuration record,
restricted to the fields the embedded executor operations read. -/
structure Config where
  emptyConsideredExists : Bool
  maxRefundQuotient : Nat
  increaseStateAccessGas : Bool
  deriving DecidableEq, Repr

/-- Modelled from the spec: the gasometer state (the gasometer crate is
outside the reviewed tree).  usedGas is the gas consumed so far out of
gasLimit; refundedGas is the signed refund counter. -/
structure Gasometer where
  gasLimit : Nat
  usedGas : Nat
  refundedGas : Int
  deriving DecidableEq, Repr

/-- Modelled from the spec: Gasometer::new starts with nothing used and
nothing refunded. -/
def Gasometer.new (gasLimit : Nat) : Gasometer :=
  { gasLimit := gasLimit, usedGas := 0, refundedGas := 0 }

/-- Modelled from the spec: Gasometer::gas, the remaining gas. -/
def Gasometer.gas (g : Gasometer) : Nat := g.gasLimit - g.usedGas

/-- Modelled from the spec: Gasometer::total_used_gas. -/
def Gasometer.totalUsedGas (g : Gasometer) : Nat := g.usedGas

/-- Modelled from the spec: Gasometer::record_stipend gives gas back to
the frame; it never fails. -/
def Gasometer.recordStipend (g : Gasometer) (stipend : Nat) : Gasometer :=
  { g with usedGas := g.usedGas - stipend }

/-- Modelled from the spec: Gasometer::record_refund accumulates the
signed refund counter; it never fails. -/
def Gasometer.recordRefund (g : Gasometer) (refund : Int) : Gasometer :=
  { g with refundedGas := g.refundedGas + refund }

/-- Modelled from the spec: Gasometer::fail consumes all remaining
gas. -/
def Gasometer.fail (g : Gasometer) : Gasometer :=
  { g with usedGas := g.gasLimit }

/-- The EIP-2929 access tracking sets (Accessed of
src/executor/stack/executor.rs); BTreeSet is modelled as Finset. -/
structure Accessed where
  accessedAddresses : Finset Nat
  accessedStorage : Finset (Nat × Nat)
  deriving DecidableEq

/-- Per-frame substate metadata (StackSubstateMetadata of
src/executor/stack/executor.rs). -/
structure StackSubstateMetadata where
  gasometer : Gasometer
  isStatic : Bool
  depth : Option Nat
  accessed : Option Accessed
  deriving DecidableEq

/-- StackSubstateMetadata::swallow_commit
(src/executor/stack/executor.rs): record the remaining gas of the child
as a stipend and its refunds into the parent gasometer, and append the
child access sets into the parent sets when both frames track them (a
BTreeSet append is a set union).  The source returns Ok(()) always
because neither gasometer call can fail. -/
def StackSubstateMetadata.swallowCommit
    (self other : StackSubstateMetadata) : StackSubstateMetadata :=
  let g := (self.gasometer.recordStipend other.gasometer.gas).recordRefund
    other.gasometer.refundedGas
  let accessed :=
    match other.accessed, self.accessed with
    | some otherAccessed, some selfAccessed =>
      some { accessedAddresses :=
               selfAccessed.accessedAddresses ∪ otherAccessed.accessedAddresses
             accessedStorage :=
               selfAccessed.accessedStorage ∪ otherAccessed.accessedStorage }
    | _, _ => self.accessed
  { self with gasometer := g, accessed := accessed }

/-- StackSubstateMetadata::swallow_revert
(src/executor/stack/executor.rs): record only the remaining gas of the
child as a stipend; the access sets are not merged. -/
def StackSubstateMetadata.swallowRevert
    (self other : StackSubstateMetadata) : StackSubstateMetadata :=
  { self with gasometer := self.gasometer.recordStipend other.gasometer.gas }

/-- StackSubstateMetadata::swallow_discard
(src/executor/stack/executor.rs): nothing is recorded. -/
def StackSubstateMetadata.swallowDiscard
    (self _other : StackSubstateMetadata) : StackSubstateMetadata :=
  self

/-- StackSubstateMetadata::spit_child
(src/executor/stack/executor.rs): a fresh gasometer with the given
limit, the static flag ORed with the parent flag, the depth incremented
(zero for the first frame), and fresh empty access sets exactly when the
parent tracks them. -/
def StackSubstateMetadata.spitChild
    (self : StackSubstateMetadata) (gasLimit : Nat) (isStatic : Bool) :
    StackSubstateMetadata :=
  { gasometer := Gasometer.new gasLimit
    isStatic := isStatic || self.isStatic
    depth :=
      match self.depth with
      | none => some 0
      | some n => some (n + 1)
    accessed := self.accessed.map (fun _ => ⟨∅, ∅⟩) }

/-- Reinterpretation of an i64 as a u64 (the `as u64` cast of
used_gas). -/
def i64AsU64 (x : Int) : Nat := (x % (2 ^ 64 : Int)).toNat

/-- StackExecutor::used_gas (src/executor/stack/executor.rs): the total
used gas of the top-level gasometer minus the capped refund
min(total_used_gas / max_refund_quotient, refunded_gas as u64).  The
division is u64 division (the quotient is a nonzero config constant, 2
or 5). -/
def usedGas (g : Gasometer) (config : Config) : Nat :=
  g.totalUsedGas -
    min (g.totalUsedGas / config.maxRefundQuotient) (i64AsU64 g.refundedGas)

/-- The backend facts the exists query reads: the existence bit and the
emptiness bit per address. -/
structure BackendView where
  bExists : Nat → Bool
  bIsEmpty : Nat → Bool

/-- Handler::exists for StackExecutor
(src/executor/stack/executor.rs): with empty_considered_exists the
backend existence bit is returned unchanged; otherwise the address must
exist and be non-empty. -/
def executorExists (config : Config) (state : BackendView) (address : Nat) : Bool :=
  if config.emptyConsideredExists then state.bExists address
  else state.bExists address && !state.bIsEmpty address

/-!
Theorems settling the claims.
-/

/-- Claim C1: refuted.  The claim states that every one of the 256
opcode byte values yields a Control value without aborting, host
opcodes yielding Trap(opcode) and unassigned bytes yielding
Exit(DesignatedInvalid).  In the source the dispatcher match has no arm
for any host opcode nor for any unassigned byte: all of them fall into
the catch-all panic arm, and the eval_external trap handler is defined
but never referenced.  Witnessed here on ADDRESS (0x30), BALANCE
(0x31), SLOAD (0x54), CALL (0xf1), LOG0 (0xa0) and the unassigned byte
0x0c, for every machine state and position. -/
theorem c1_eval_panics_on_host_and_unassigned_opcodes :
    ∀ (m : Machine) (p : Nat),
      eval m 0x30 p = none ∧ eval m 0x31 p = none ∧ eval m 0x54 p = none ∧
      eval m 0xf1 p = none ∧ eval m 0xa0 p = none ∧ eval m 0x0c p = none := by
  intro m p
  exact ⟨rfl, rfl, rfl, rfl, rfl, rfl⟩

/-- Claim C2: the underflow half is refuted on the code.  Stack::pop on
an empty stack does not return StackUnderflow: the source computes
len() - 1 before any check, which underflows and aborts (none); the
guard that mentions StackUnderflow discards the error it constructs.
On non-empty stacks pop does remove and return the top (the second and
third conjuncts, with the top stored last). -/
theorem c2_pop_empty_aborts_nonempty_pops :
    Stack.pop { data := [], limit := 1024 } = none
    ∧ Stack.pop { data := [5], limit := 1024 } = some (5, { data := [], limit := 1024 })
    ∧ Stack.pop { data := [7, 5], limit := 1024 } = some (5, { data := [7], limit := 1024 }) := by
  refine ⟨rfl, ?_, ?_⟩ <;> decide

/-- Claim C3: refuted.  With the program counter at or past the code
length, step does not behave as STOP: the fetch goes through
ManagedBufferAccess::get, which signals INDEX_OUT_OF_RANGE and aborts;
the arm of the source that would exit with Succeed(Stopped) sits under
an unreachable None pattern. -/
theorem c3_step_past_code_end_aborts (m : Machine) (p : Nat)
    (hp : m.position = .ok p) (hend : m.code.length ≤ p) :
    m.step = none := by
  have hm : mbGet m.code p = none := by
    simp only [mbGet, mbTryGet]
    rw [if_neg (by omega)]
  simp only [Machine.step, hp, hm]

/-- Concrete machine for the C3 witness: empty code, program counter
zero. -/
def c3Machine : Machine :=
  { data := []
    code := []
    position := .ok 0
    returnRange := (0, 0)
    valids := []
    memory := { data := [], effectiveLen := 0, limit := 1024 }
    stack := { data := [], limit := 1024 } }

/-- Witness for C3: the hypotheses hold at c3Machine and step aborts
there. -/
theorem c3_witness :
    c3Machine.position = .ok 0
    ∧ c3Machine.code.length ≤ 0
    ∧ c3Machine.step = none :=
  ⟨rfl, by decide, c3_step_past_code_end_aborts c3Machine 0 rfl (by decide)⟩

/-- Claim C6: confirmed.  At a valid position p with a fetchable byte,
step interprets the control signal of eval as the claim states:
Continue(n) advances the position to p + n and returns ok, Jump(t) sets
it to t and returns ok, Exit(r) records r as the terminal position and
returns an exit capture with r, and Trap(op) sets the position to p + 1
and returns a trap capture with op. -/
theorem c6_step_interprets_control (m : Machine) (p : Nat)
    (hp : m.position = .ok p) (v : Nat) (hv : mbGet m.code p = some v)
    (m2 : Machine) (c : Control) (he : eval m v p = some (m2, c)) :
    m.step = some
      (match c with
       | .cont n => ({ m2 with position := .ok (p + n) }, none)
       | .exit r => ({ m2 with position := .error r }, some (.exit r))
       | .jump t => ({ m2 with position := .ok t }, none)
       | .trap op => ({ m2 with position := .ok (p + 1) }, some (.trap op))) := by
  simp only [Machine.step, hp, hv, he]
  cases c <;> rfl

/-- Concrete machine for the C6 witness: a single STOP opcode. -/
def c6Machine : Machine :=
  { data := []
    code := [0x00]
    position := .ok 0
    returnRange := (0, 0)
    valids := [false]
    memory := { data := [], effectiveLen := 0, limit := 1024 }
    stack := { data := [], limit := 1024 } }

/-- Witness for C6: the hypotheses hold at c6Machine (STOP evaluates to
Exit(Succeed(Stopped))) and step records the exit reason and returns
the exit capture. -/
theorem c6_witness :
    c6Machine.position = .ok 0
    ∧ mbGet c6Machine.code 0 = some 0x00
    ∧ eval c6Machine 0x00 0 = some (c6Machine, .exit (.succeed .stopped))
    ∧ c6Machine.step = some
        ({ c6Machine with position := .error (.succeed .stopped) },
         some (.exit (.succeed .stopped))) :=
  ⟨rfl, by decide, rfl,
   c6_step_interprets_control c6Machine 0 rfl 0x00 (by decide) c6Machine
     (.exit (.succeed .stopped)) rfl⟩

/-- Helper: a range map whose values are all zero is a replicate. -/
theorem range_map_eq_replicate_zero (d : Nat) (f : Nat → Nat)
    (h : ∀ i, i < d → f i = 0) : (List.range d).map f = List.replicate d 0 := by
  induction d with
  | zero => rfl
  | succ k ihk =>
    rw [List.range_succ, List.map_append,
      ihk (fun i hi => h i (by omega)), List.replicate_succ']
    simp [h k (by omega)]

/-- Concrete machine refuting C5, forward case: the return range 0 to
2 ^ 64 is forward but its length does not fit in usize. -/
def c5ForwardMachine : Machine :=
  { data := []
    code := []
    position := .ok 0
    returnRange := (0, 18446744073709551616)
    valids := []
    memory := { data := [], effectiveLen := 0, limit := 1024 }
    stack := { data := [], limit := 1024 } }

/-- Concrete machine refuting C5, backwards case: the return range 2 to
1 makes the U256 subtraction underflow. -/
def c5BackwardsMachine : Machine :=
  { data := []
    code := []
    position := .ok 0
    returnRange := (2, 1)
    valids := []
    memory := { data := [], effectiveLen := 0, limit := 1024 }
    stack := { data := [], limit := 1024 } }

/-- Counterexample to claim C5 as stated: return_value does not always
return a byte string of end - start bytes.  When end - start exceeds
usize::MAX the as_usize conversion panics (forward machine), and when
the range is backwards the U256 subtraction end - start panics
(backwards machine); both abort instead of returning a byte string. -/
theorem c5_counterexample :
    c5ForwardMachine.returnValue = none
    ∧ c5BackwardsMachine.returnValue = none :=
  ⟨rfl, rfl⟩

/-- Claim C5, amended: for every machine whose return range is not
backwards, whose length end - start fits in usize, and whose memory
contents fit in usize (always true of a Rust buffer), return_value
returns exactly end - start bytes, where byte i is the memory byte at
offset start + i and every offset past the written contents, in
particular the whole unreachable tail past usize::MAX, reads as
zero. -/
theorem c5_return_value_amended (m : Machine)
    (h1 : m.returnRange.1 ≤ m.returnRange.2)
    (h2 : m.returnRange.2 - m.returnRange.1 ≤ usizeMax)
    (h3 : m.memory.data.length ≤ usizeMax) :
    m.returnValue = some ((List.range (m.returnRange.2 - m.returnRange.1)).map
      (fun i => m.memory.data.getD (m.returnRange.1 + i) 0)) := by
  have hsub : u256checkedSub m.returnRange.2 m.returnRange.1 =
      some (m.returnRange.2 - m.returnRange.1) := by
    simp [u256checkedSub, h1]
  have hus : u256asUsize (m.returnRange.2 - m.returnRange.1) =
      some (m.returnRange.2 - m.returnRange.1) := by
    simp [u256asUsize, h2]
  by_cases hA : usizeMax < m.returnRange.1
  · rw [Machine.returnValue, if_pos hA]
    simp only [hsub, hus]
    have hz : (List.range (m.returnRange.2 - m.returnRange.1)).map
        (fun i => m.memory.data.getD (m.returnRange.1 + i) 0) =
        List.replicate (m.returnRange.2 - m.returnRange.1) 0 := by
      refine range_map_eq_replicate_zero _ _ (fun i _ => ?_)
      exact List.getD_eq_default _ _ (by omega)
    rw [hz]
  · by_cases hB : usizeMax < m.returnRange.2
    · rw [Machine.returnValue, if_neg hA, if_pos hB]
      simp only [hsub, hus]
      have hlen : (m.memory.get m.returnRange.1 (usizeMax - m.returnRange.1)).length =
          usizeMax - m.returnRange.1 := by
        simp [Memory.get]
      rw [hlen]
      have hd : m.returnRange.2 - m.returnRange.1 =
          (usizeMax - m.returnRange.1) +
            (m.returnRange.2 - m.returnRange.1 - (usizeMax - m.returnRange.1)) := by
        omega
      conv_rhs => rw [hd, List.range_add, List.map_append, List.map_map]
      rw [Memory.get]
      refine congrArg some ?_
      congr 1
      refine (range_map_eq_replicate_zero _ _ (fun i _ => ?_)).symm
      simp only [Function.comp_apply]
      exact List.getD_eq_default _ _ (by omega)
    · rw [Machine.returnValue, if_neg hA, if_neg hB]
      simp only [hsub, hus]
      rw [Memory.get]

/-- Concrete machine for the C5 witness: three memory bytes and the
return range 1 to 5. -/
def c5WitnessMachine : Machine :=
  { data := []
    code := []
    position := .ok 0
    returnRange := (1, 5)
    valids := []
    memory := { data := [9, 8, 7], effectiveLen := 32, limit := 1024 }
    stack := { data := [], limit := 1024 } }

/-- Witness for the amended C5: the hypotheses hold at c5WitnessMachine
and return_value yields the two in-range bytes followed by two zero
fill bytes. -/
theorem c5_witness :
    c5WitnessMachine.returnRange.1 ≤ c5WitnessMachine.returnRange.2
    ∧ c5WitnessMachine.returnRange.2 - c5WitnessMachine.returnRange.1 ≤ usizeMax
    ∧ c5WitnessMachine.memory.data.length ≤ usizeMax
    ∧ c5WitnessMachine.returnValue = some [8, 7, 0, 0] := by
  refine ⟨by decide, by decide, by decide, ?_⟩
  rw [c5_return_value_amended c5WitnessMachine (by decide) (by decide) (by decide)]
  decide

/-- The Yellow Paper example caller
0x6ac7ea33f8831ea9dcc53393aaa88b25a785dbf0 as 20 bytes. -/
def ypCaller : List Nat :=
  [0x6a, 0xc7, 0xea, 0x33, 0xf8, 0x83, 0x1e, 0xa9, 0xdc, 0xc5,
   0x33, 0x93, 0xaa, 0xa8, 0x8b, 0x25, 0xa7, 0x85, 0xdb, 0xf0]

/-- The Yellow Paper example contract address
0xcd234a471b72ba2f1ccf0a70fcaba648a5eecd8d as 20 bytes. -/
def ypAddress : List Nat :=
  [0xcd, 0x23, 0x4a, 0x47, 0x1b, 0x72, 0xba, 0x2f, 0x1c, 0xcf,
   0x0a, 0x70, 0xfc, 0xab, 0xa6, 0x48, 0xa5, 0xee, 0xcd, 0x8d]

/-- Sanity check of the keccak model and of the claimed expectation: the
canonical RLP encoding of the two-element list of the example caller and
nonce zero, with nonce zero encoded as the single byte 0x80, hashes to
the Yellow Paper example address. -/
theorem keccak_canonical_rlp_yields_yp_address :
    (keccak256 (0xd6 :: 0x94 :: ypCaller ++ [0x80])).drop 12 = ypAddress := by
  set_option maxRecDepth 100000 in decide

/-- Claim C4: refuted on the code.  The source encodes the nonce in the
RLP payload least significant byte first with every zero byte replaced
by 0x80, and in particular encodes nonce zero as the byte 0x00 rather
than 0x80.  At the Yellow Paper example caller with nonce zero the
payload is therefore 0xd6 0x94 caller 0x00 and the derived address is
0xa038e18f89d7cbc43f4eed33b475576c16b62059, not the claimed
0xcd234a471b72ba2f1ccf0a70fcaba648a5eecd8d. -/
theorem c4_create_address_nonce_zero_wrong :
    createAddressLegacy ypCaller 0 =
      [0xa0, 0x38, 0xe1, 0x8f, 0x89, 0xd7, 0xcb, 0xc4, 0x3f, 0x4e,
       0xed, 0x33, 0xb4, 0x75, 0x57, 0x6c, 0x16, 0xb6, 0x20, 0x59]
    ∧ createAddressLegacy ypCaller 0 ≠ ypAddress := by
  constructor
  · set_option maxRecDepth 100000 in decide
  · set_option maxRecDepth 100000 in decide

/-- Claim C7: confirmed.  On commit the parent gasometer records the
remaining gas of the child as a stipend and the refunds of the child,
and the parent access sets become the union of the parent and child
sets whenever both frames track them; on revert only the stipend is
recorded and the access sets are untouched; on discard nothing at all
is recorded. -/
theorem c7_swallow_commit_revert_discard (p c : StackSubstateMetadata) :
    ((p.swallowCommit c).gasometer =
      (p.gasometer.recordStipend c.gasometer.gas).recordRefund c.gasometer.refundedGas)
    ∧ (∀ pa ca, p.accessed = some pa → c.accessed = some ca →
        (p.swallowCommit c).accessed = some
          { accessedAddresses := pa.accessedAddresses ∪ ca.accessedAddresses
            accessedStorage := pa.accessedStorage ∪ ca.accessedStorage })
    ∧ ((p.swallowRevert c).gasometer = p.gasometer.recordStipend c.gasometer.gas)
    ∧ ((p.swallowRevert c).accessed = p.accessed)
    ∧ p.swallowDiscard c = p := by
  refine ⟨rfl, ?_, rfl, rfl, rfl⟩
  intro pa ca hpa hca
  simp [StackSubstateMetadata.swallowCommit, hpa, hca]

/-- Concrete parent frame for the C7 witness. -/
def c7Parent : StackSubstateMetadata :=
  { gasometer := { gasLimit := 100, usedGas := 40, refundedGas := 3 }
    isStatic := false
    depth := some 0
    accessed := some { accessedAddresses := {1, 2}, accessedStorage := {(1, 5)} } }

/-- Concrete child frame for the C7 witness. -/
def c7Child : StackSubstateMetadata :=
  { gasometer := { gasLimit := 30, usedGas := 10, refundedGas := 2 }
    isStatic := false
    depth := some 1
    accessed := some { accessedAddresses := {2, 3}, accessedStorage := {(2, 7)} } }

/-- Witness for C7: at the concrete frames the commit gives back the 20
remaining child gas units as a stipend, adds the child refunds, and
unions the access sets. -/
theorem c7_witness :
    c7Parent.accessed = some { accessedAddresses := {1, 2}, accessedStorage := {(1, 5)} }
    ∧ c7Child.accessed = some { accessedAddresses := {2, 3}, accessedStorage := {(2, 7)} }
    ∧ (c7Parent.swallowCommit c7Child).gasometer =
        { gasLimit := 100, usedGas := 20, refundedGas := 5 }
    ∧ (c7Parent.swallowCommit c7Child).accessed =
        some { accessedAddresses := {1, 2, 3}, accessedStorage := {(1, 5), (2, 7)} } := by
  refine ⟨rfl, rfl, ?_, ?_⟩
  · rw [(c7_swallow_commit_revert_discard c7Parent c7Child).1]
    decide
  · rw [(c7_swallow_commit_revert_discard c7Parent c7Child).2.1
      { accessedAddresses := {1, 2}, accessedStorage := {(1, 5)} }
      { accessedAddresses := {2, 3}, accessedStorage := {(2, 7)} } rfl rfl]
    decide

/-- Claim C8: confirmed.  used_gas is the total used gas of the
gasometer minus the capped refund min(total / max_refund_quotient,
refunded as u64); consequently the refund actually applied, total used
gas minus used_gas, never exceeds total used gas divided by
max_refund_quotient.  The quotient hypothesis reflects that the config
constant is 2 or 5 (a zero quotient would make the u64 division of the
source panic). -/
theorem c8_used_gas_refund_capped (g : Gasometer) (config : Config)
    (_hq : 0 < config.maxRefundQuotient) :
    usedGas g config =
      g.totalUsedGas -
        min (g.totalUsedGas / config.maxRefundQuotient) (i64AsU64 g.refundedGas)
    ∧ g.totalUsedGas - usedGas g config ≤
        g.totalUsedGas / config.maxRefundQuotient := by
  refine ⟨rfl, ?_⟩
  unfold usedGas
  generalize g.totalUsedGas / config.maxRefundQuotient = q
  generalize i64AsU64 g.refundedGas = r
  rw [Nat.min_def]
  split <;> omega

/-- Concrete gasometer for the C8 witness. -/
def c8Gasometer : Gasometer := { gasLimit := 100, usedGas := 60, refundedGas := 10 }

/-- Concrete config for the C8 witness (post-London quotient 5). -/
def c8Config : Config :=
  { emptyConsideredExists := true, maxRefundQuotient := 5, increaseStateAccessGas := true }

/-- Witness for C8: with 60 gas used and 10 refunded the applied refund
is 10 (below the cap 12) and used_gas is 50. -/
theorem c8_witness :
    0 < c8Config.maxRefundQuotient
    ∧ usedGas c8Gasometer c8Config = 50
    ∧ c8Gasometer.totalUsedGas - usedGas c8Gasometer c8Config ≤
        c8Gasometer.totalUsedGas / c8Config.maxRefundQuotient := by
  refine ⟨by decide, ?_, (c8_used_gas_refund_capped c8Gasometer c8Config (by decide)).2⟩
  rw [(c8_used_gas_refund_capped c8Gasometer c8Config (by decide)).1]
  decide

/-- Claim C9: confirmed.  The child metadata produced by spit_child has
its static flag equal to the OR of the requested flag and the parent
flag; hence a static parent spawns only static children, for every
requested flag. -/
theorem c9_spit_child_static_propagation
    (m : StackSubstateMetadata) (gasLimit : Nat) (isStatic : Bool) :
    (m.spitChild gasLimit isStatic).isStatic = (isStatic || m.isStatic)
    ∧ (m.isStatic = true → (m.spitChild gasLimit isStatic).isStatic = true) := by
  refine ⟨rfl, fun h => ?_⟩
  simp [StackSubstateMetadata.spitChild, h]

/-- Concrete static parent frame for the C9 witness. -/
def c9Parent : StackSubstateMetadata :=
  { gasometer := { gasLimit := 10, usedGas := 0, refundedGas := 0 }
    isStatic := true
    depth := some 3
    accessed := none }

/-- Witness for C9: the static parent spawns a static child even when
the requested flag is false. -/
theorem c9_witness :
    (c9Parent.spitChild 7 false).isStatic = (false || c9Parent.isStatic)
    ∧ c9Parent.isStatic = true
    ∧ (c9Parent.spitChild 7 false).isStatic = true :=
  ⟨(c9_spit_child_static_propagation c9Parent 7 false).1, rfl,
   (c9_spit_child_static_propagation c9Parent 7 false).2 rfl⟩

/-- Claim C10: confirmed.  With empty_considered_exists the exists
query returns the backend existence bit unchanged; without it the query
is true exactly when the backend reports existence and the address is
not empty. -/
theorem c10_exists_respects_config (config : Config) (state : BackendView) (address : Nat) :
    (config.emptyConsideredExists = true →
      executorExists config state address = state.bExists address)
    ∧ (config.emptyConsideredExists = false →
      (executorExists config state address = true ↔
        state.bExists address = true ∧ state.bIsEmpty address = false)) := by
  constructor
  · intro h
    simp [executorExists, h]
  · intro h
    simp [executorExists, h]

/-- Concrete backend for the C10 witness: address 1 exists and is
empty, address 3 exists and is non-empty. -/
def c10Backend : BackendView :=
  { bExists := fun a => a == 1 || a == 3, bIsEmpty := fun a => a == 1 }

/-- Concrete config pair for the C10 witness. -/
def c10ConfigTrue : Config :=
  { emptyConsideredExists := true, maxRefundQuotient := 5, increaseStateAccessGas := true }

/-- Concrete config for the C10 witness with the flag off. -/
def c10ConfigFalse : Config :=
  { emptyConsideredExists := false, maxRefundQuotient := 5, increaseStateAccessGas := true }

/-- Witness for C10: both hypotheses discharged at concrete inputs; the
empty address 1 is reported existing under the flag and filtered out
without it. -/
theorem c10_witness :
    executorExists c10ConfigTrue c10Backend 1 = c10Backend.bExists 1
    ∧ (executorExists c10ConfigFalse c10Backend 1 = true ↔
        c10Backend.bExists 1 = true ∧ c10Backend.bIsEmpty 1 = false) :=
  ⟨(c10_exists_respects_config c10ConfigTrue c10Backend 1).1 rfl,
   (c10_exists_respects_config c10ConfigFalse c10Backend 1).2 rfl⟩

end SputnikVM
